import Mathlib

/-!
A shallow embedding of the focus-timer core of the FlowState time tracker:
the midnight session splitter (from the utils module) and the per-category
timer state machine (from the App component).

Timestamps and durations in the timer model are rationals, mirroring
JavaScript number arithmetic exactly on the inputs the application
produces (integer-millisecond timestamps combined with `+`, `-` and a
single division by the flow divisor; all such values stay well inside the
range where IEEE doubles behave exactly like rationals for the properties
stated here, in particular integrality of a quotient of integers).

The splitter works on natural-number epoch milliseconds, with local
midnight placed at multiples of 86400000; the timezone offset drops out of
every statement below, so this models the date-fns local-day functions
faithfully.
-/

namespace Flow

/-! ### Midnight splitter, from utils: splitSessionByMidnight -/

def dayMs : ℕ := 86400000

/-- Local calendar-day index of an epoch-millisecond timestamp
(two timestamps satisfy date-fns isSameDay iff their indices agree). -/
def dayIndex (t : ℕ) : ℕ := t / dayMs

/-- date-fns startOfDay: the midnight beginning the day holding t. -/
def startOfDay (t : ℕ) : ℕ := dayIndex t * dayMs

/-- date-fns endOfDay: 23:59:59.999 of the day holding t, i.e. one
millisecond before the next midnight. -/
def endOfDay (t : ℕ) : ℕ := startOfDay t + (dayMs - 1)

/-- The fields of a session record that splitSessionByMidnight reads or
rewrites; all other fields are copied unchanged into every part and play
no role in the split arithmetic. -/
structure SessRec where
  startTime : ℕ
  endTime : ℕ
  duration : ℕ
deriving DecidableEq

/-- The day-walking loop of splitSessionByMidnight.  The JS source loops
`while (!isSameDay(currentStart, end))`, emitting a part ending at
endOfDay(currentStart) and advancing currentStart to the next midnight,
then pushes a final part up to the original end.  Each iteration advances
exactly one calendar day, so a fuel of one more than the day difference
reproduces the loop exactly; the fuel-0 case is unreachable for any call
made by splitSessionByMidnight on a record with startTime ≤ endTime. -/
def splitGo : ℕ → ℕ → ℕ → List SessRec
  | 0, _, _ => []
  | fuel + 1, cur, endT =>
    if dayIndex cur = dayIndex endT then
      [⟨cur, endT, endT - cur⟩]
    else
      ⟨cur, endOfDay cur, endOfDay cur - cur⟩ ::
        splitGo fuel (startOfDay (cur + dayMs)) endT

/-- utils.splitSessionByMidnight: same local day → the record itself,
unchanged (its duration field, the focused time, is kept as is);
otherwise the day-walking loop. -/
def splitSessionByMidnight (s : SessRec) : List SessRec :=
  if dayIndex s.startTime = dayIndex s.endTime then [s]
  else splitGo (dayIndex s.endTime - dayIndex s.startTime + 1) s.startTime s.endTime

theorem splitGo_spec : ∀ (fuel cur endT : ℕ),
    dayIndex endT - dayIndex cur < fuel → cur ≤ endT →
    ((splitGo fuel cur endT).head?.map SessRec.startTime = some cur) ∧
    ((splitGo fuel cur endT).getLast?.map SessRec.endTime = some endT) ∧
    (((splitGo fuel cur endT).map SessRec.duration).sum + (splitGo fuel cur endT).length
      = (endT - cur) + 1) ∧
    List.Chain' (fun a b => a.endTime + 1 = b.startTime) (splitGo fuel cur endT) ∧
    (∀ p ∈ splitGo fuel cur endT, p.startTime ≤ p.endTime) ∧
    (dayIndex cur ≠ dayIndex endT → 2 ≤ (splitGo fuel cur endT).length) := by
  intro fuel
  induction fuel with
  | zero => intro cur endT hf _; omega
  | succ fuel ih =>
    intro cur endT hf hle
    by_cases hsame : dayIndex cur = dayIndex endT
    · rw [splitGo, if_pos hsame]
      refine ⟨rfl, rfl, by simp, by simp, ?_, fun h => absurd hsame h⟩
      intro p hp
      simp only [List.mem_singleton] at hp
      subst hp
      exact hle
    · rw [splitGo, if_neg hsame]
      have hmono : dayIndex cur ≤ dayIndex endT := Nat.div_le_div_right hle
      have hlt : dayIndex cur < dayIndex endT := by omega
      have hcur' : dayIndex (startOfDay (cur + dayMs)) = dayIndex cur + 1 := by
        simp only [dayIndex, startOfDay, dayMs] at *
        omega
      have hle' : startOfDay (cur + dayMs) ≤ endT := by
        simp only [dayIndex, startOfDay, dayMs] at hlt ⊢
        omega
      have hf' : dayIndex endT - dayIndex (startOfDay (cur + dayMs)) < fuel := by omega
      obtain ⟨ihHead, ihLast, ihSum, ihChain, ihLe, _⟩ :=
        ih (startOfDay (cur + dayMs)) endT hf' hle'
      obtain ⟨r, rs, hrest⟩ :
          ∃ r rs, splitGo fuel (startOfDay (cur + dayMs)) endT = r :: rs := by
        cases hsp : splitGo fuel (startOfDay (cur + dayMs)) endT with
        | nil => rw [hsp] at ihHead; simp at ihHead
        | cons r rs => exact ⟨r, rs, rfl⟩
      rw [hrest] at ihHead ihLast ihSum ihChain ihLe
      have hr : r.startTime = startOfDay (cur + dayMs) := by
        simpa using ihHead
      rw [hrest]
      refine ⟨rfl, ?_, ?_, ?_, ?_, ?_⟩
      · rw [List.getLast?_cons_cons]
        exact ihLast
      · simp only [List.map_cons, List.sum_cons, List.length_cons] at ihSum ⊢
        simp only [dayIndex, startOfDay, endOfDay, dayMs] at *
        omega
      · rw [List.chain'_cons]
        refine ⟨?_, ihChain⟩
        rw [hr]
        simp only [dayIndex, startOfDay, endOfDay, dayMs]
        omega
      · intro p hp
        rcases List.mem_cons.mp hp with h | h
        · subst h
          simp only [endOfDay, startOfDay, dayIndex, dayMs]
          omega
        · exact ihLe p h
      · simp only [List.length_cons]
        omega

/-- Claim C1, amended.  For a record with startTime ≤ endTime,
splitSessionByMidnight returns an earliest-first sequence of one or more
records: a same-local-day record is returned alone and unchanged (its
duration field, the focused time, is not recomputed from the span);
otherwise the parts start at the original startTime, end at the original
endTime, each part ends one millisecond BEFORE the next part starts
(date-fns endOfDay is 23:59:59.999, so the parts are non-overlapping but
not contiguous), and the sum of the parts' duration fields equals
(endTime - startTime) - (number of parts - 1): exactly one millisecond is
lost per midnight crossed, so the claimed exact-sum and contiguity
invariants fail. -/
theorem c1_midnight_split (s : SessRec) (h : s.startTime ≤ s.endTime) :
    (dayIndex s.startTime = dayIndex s.endTime → splitSessionByMidnight s = [s]) ∧
    (dayIndex s.startTime ≠ dayIndex s.endTime →
      ((splitSessionByMidnight s).head?.map SessRec.startTime = some s.startTime) ∧
      ((splitSessionByMidnight s).getLast?.map SessRec.endTime = some s.endTime) ∧
      (((splitSessionByMidnight s).map SessRec.duration).sum
          + (splitSessionByMidnight s).length
        = (s.endTime - s.startTime) + 1) ∧
      List.Chain' (fun a b => a.endTime + 1 = b.startTime) (splitSessionByMidnight s) ∧
      (∀ p ∈ splitSessionByMidnight s, p.startTime ≤ p.endTime) ∧
      2 ≤ (splitSessionByMidnight s).length) := by
  constructor
  · intro hsame
    rw [splitSessionByMidnight, if_pos hsame]
  · intro hne
    rw [splitSessionByMidnight, if_neg hne]
    obtain ⟨h1, h2, h3, h4, h5, h6⟩ :=
      splitGo_spec (dayIndex s.endTime - dayIndex s.startTime + 1)
        s.startTime s.endTime (by omega) h
    exact ⟨h1, h2, h3, h4, h5, h6 hne⟩

/-- Claim C1, counterexample to the claim as stated: the spec's own
midnight example, a session from 23:30 to 00:45 local time (modeled at
timezone offset 0: start 84600000, end 89100000, span 4500000 ms).
The code produces parts of durations 1799999 and 2700000 — not 1800000
and 2700000 — summing to 4499999 ≠ 4500000, and the first part ends at
86399999, one millisecond before the second part starts at 86400000,
refuting both the exact-sum and the contiguity conjuncts. -/
theorem c1_midnight_split_counterexample :
    splitSessionByMidnight ⟨84600000, 89100000, 4500000⟩ =
      [⟨84600000, 86399999, 1799999⟩, ⟨86400000, 89100000, 2700000⟩] ∧
    ((splitSessionByMidnight ⟨84600000, 89100000, 4500000⟩).map SessRec.duration).sum
      = 4499999 ∧
    (4499999 : ℕ) ≠ 89100000 - 84600000 ∧
    (86399999 : ℕ) ≠ 86400000 := by
  refine ⟨by decide, by decide, by decide, by decide⟩

/-- Claim C1, witness for the amended theorem at the spec's 23:30-to-00:45
example record: its hypothesis 84600000 ≤ 89100000 is discharged and the
off-by-the-gap sum equation and the two-part length are obtained. -/
theorem c1_midnight_split_witness :
    ((splitSessionByMidnight ⟨84600000, 89100000, 4500000⟩).map SessRec.duration).sum
        + (splitSessionByMidnight ⟨84600000, 89100000, 4500000⟩).length
      = (89100000 - 84600000) + 1 ∧
    2 ≤ (splitSessionByMidnight ⟨84600000, 89100000, 4500000⟩).length := by
  have h := (c1_midnight_split ⟨84600000, 89100000, 4500000⟩ (by decide)).2 (by decide)
  exact ⟨h.2.2.1, h.2.2.2.2.2⟩

/-! ### Timer state machine, from the App component -/

inductive TimerMode where
  | FLOW
  | COUNTDOWN
deriving DecidableEq

inductive TimerStatus where
  | IDLE
  | RUNNING
  | PAUSED
  | BREAK
deriving DecidableEq

/-- Per-category timer state.  completedTasks is modeled by the list of
completedAt stamps of its records; the claims only ever need it preserved
or emptied wholesale. -/
structure TimerState where
  mode : TimerMode
  status : TimerStatus
  startTime : Option ℚ
  sessionStartTime : Option ℚ
  accumulatedTime : ℚ
  targetTime : Option ℚ
  breakRemaining : Option ℚ
  intervals : List ℚ
  completedTasks : List ℚ
deriving DecidableEq

/-- JavaScript truthiness of a nullable number: null and 0 are falsy. -/
def truthy (o : Option ℚ) : Prop := o.getD 0 ≠ 0

instance (o : Option ℚ) : Decidable (truthy o) :=
  inferInstanceAs (Decidable (o.getD 0 ≠ 0))

/-- JavaScript `x || d` on a nullable number x: d when x is null OR zero. -/
def jsOr (o : Option ℚ) (d : ℚ) : ℚ := if truthy o then o.getD 0 else d

def initialTimerState : TimerState where
  mode := .FLOW
  status := .IDLE
  startTime := none
  sessionStartTime := none
  accumulatedTime := 0
  targetTime := none
  breakRemaining := none
  intervals := []
  completedTasks := []

/-- App.toggleTimer: RUNNING+FLOW → BREAK (bank the interval, break =
interval / flowDivisor); RUNNING+COUNTDOWN → PAUSED; BREAK → RUNNING;
anything else (IDLE, PAUSED, unrecognized) → RUNNING via the start path. -/
def toggleTimer (flowDivisor countdownMinutes : ℚ) (ts : TimerState) (now : ℚ) :
    TimerState :=
  if ts.status = .RUNNING then
    if ts.mode = .FLOW then
      { ts with
        status := .BREAK
        startTime := some now
        accumulatedTime := 0
        intervals := ts.intervals ++ [now - jsOr ts.startTime now]
        breakRemaining := some ((now - jsOr ts.startTime now) / flowDivisor) }
    else
      { ts with
        status := .PAUSED
        startTime := none
        accumulatedTime := ts.accumulatedTime + (now - jsOr ts.startTime now) }
  else if ts.status = .BREAK then
    { ts with
      status := .RUNNING
      startTime := some now
      accumulatedTime := 0
      breakRemaining := none }
  else
    { ts with
      status := .RUNNING
      startTime := some now
      sessionStartTime := some (jsOr ts.sessionStartTime now)
      accumulatedTime := if ts.mode = .FLOW then 0 else ts.accumulatedTime
      targetTime :=
        if ts.mode = .COUNTDOWN then
          some (jsOr ts.targetTime (countdownMinutes * 60 * 1000))
        else none }

/-- Session assembler: work contributed by the currently running segment. -/
def workInCurrentInterval (ts : TimerState) (now : ℚ) : ℚ :=
  if ts.status = .RUNNING then now - jsOr ts.startTime now else 0

def totalFocused (ts : TimerState) (now : ℚ) : ℚ :=
  ts.intervals.sum + workInCurrentInterval ts now + ts.accumulatedTime

def segmentCount (ts : TimerState) (now : ℚ) : ℕ :=
  ts.intervals.length +
    (if workInCurrentInterval ts now + ts.accumulatedTime > 0 then 1 else 0)

def finalSessionStartTime (ts : TimerState) (now : ℚ) : ℚ :=
  jsOr ts.sessionStartTime (jsOr ts.startTime now)

/-- The candidate session handed to the confirmation modal
(setPendingSession's payload, minus the category id). -/
structure Pending where
  start : ℚ
  endT : ℚ
  duration : ℚ
  totalElapsed : ℚ
  sessionStartTime : ℚ
  mode : TimerMode
  segmentCount : ℕ
deriving DecidableEq

/-- App.handleEndSession (identical, line for line, to the tick path's
handleEndSessionForCategory): emit a candidate iff totalFocused > 1000 ms,
and unconditionally reset the timer state to IDLE; both the emission and
the reset read the same pre-reset snapshot ts. -/
def handleEndSession (ts : TimerState) (now : ℚ) : TimerState × Option Pending :=
  ({ ts with
      status := .IDLE
      startTime := none
      sessionStartTime := none
      accumulatedTime := 0
      targetTime := none
      breakRemaining := none
      intervals := []
      completedTasks := [] },
   if totalFocused ts now > 1000 then
     some
       { start := finalSessionStartTime ts now
         endT := now
         duration := totalFocused ts now
         totalElapsed := now - finalSessionStartTime ts now
         sessionStartTime := finalSessionStartTime ts now
         mode := ts.mode
         segmentCount := max 1 (segmentCount ts now) }
   else none)

/-- The tick path's handleBreakEndForCategory. -/
def handleBreakEnd (ts : TimerState) : TimerState :=
  { ts with status := .IDLE, startTime := none, breakRemaining := none }

/-- The periodic tick for one category: COUNTDOWN completion (guarded by
truthiness of targetTime) fires the End-Session path; BREAK expiry
(guarded by breakRemaining !== null) fires handleBreakEnd; everything
else is untouched. -/
def tick (ts : TimerState) (now : ℚ) : TimerState × Option Pending :=
  if ts.status = .RUNNING then
    if ts.mode = .COUNTDOWN ∧ truthy ts.targetTime then
      if ts.accumulatedTime + (now - jsOr ts.startTime now) ≥ ts.targetTime.getD 0 then
        handleEndSession ts now
      else (ts, none)
    else (ts, none)
  else if ts.status = .BREAK ∧ ts.breakRemaining ≠ none then
    if ts.breakRemaining.getD 0 - (now - jsOr ts.startTime now) ≤ 0 then
      (handleBreakEnd ts, none)
    else (ts, none)
  else (ts, none)

/-- App.resetTimer. -/
def resetTimer (ts : TimerState) : TimerState :=
  { ts with
    status := .IDLE
    startTime := none
    sessionStartTime := none
    accumulatedTime := 0
    breakRemaining := none
    targetTime := none
    intervals := []
    completedTasks := [] }

/-- App.skipBreak. -/
def skipBreak (ts : TimerState) : TimerState :=
  { ts with status := .IDLE, startTime := none, breakRemaining := none }

/-- App.extendBreak. -/
def extendBreak (ts : TimerState) (ms : ℚ) : TimerState :=
  { ts with breakRemaining := some (jsOr ts.breakRemaining 0 + ms) }

/-- The Flowmodoro / Countdown mode buttons: overwrite mode, keep
everything else. -/
def setMode (m : TimerMode) (ts : TimerState) : TimerState :=
  { ts with mode := m }

/-- The operations of the program that mutate one category's TimerState,
with the inputs each reads (settings values and the sampled clock). -/
inductive Event where
  | toggle (flowDivisor countdownMinutes now : ℚ)
  | endSession (now : ℚ)
  | reset
  | tickAt (now : ℚ)
  | skipBreak
  | extendBreak (ms : ℚ)
  | setMode (m : TimerMode)

/-- One operation applied to one category's state, together with the
candidate session it emits, if any; only the End-Session paths (explicit
or fired by the tick) ever emit. -/
def stepO (ts : TimerState) : Event → TimerState × Option Pending
  | .toggle fd cm now => (toggleTimer fd cm ts now, none)
  | .endSession now => handleEndSession ts now
  | .reset => (resetTimer ts, none)
  | .tickAt now => tick ts now
  | .skipBreak => (skipBreak ts, none)
  | .extendBreak ms => (extendBreak ts ms, none)
  | .setMode m => setMode m ts |> fun s => (s, none)

def step (ts : TimerState) (e : Event) : TimerState := (stepO ts e).1

/-- States reachable from the initial IDLE state by operations satisfying
a side condition P (take P := fun x e => True for plain reachability). -/
inductive ReachableW (P : TimerState → Event → Prop) : TimerState → Prop where
  | init : ReachableW P initialTimerState
  | step : ∀ {ts : TimerState} {e : Event},
      ReachableW P ts → P ts e → ReachableW P (step ts e)

abbrev Reachable : TimerState → Prop := ReachableW fun _ _ => True

/-! ### Claims about single operations -/

/-- Claim C2 (confirmed): End-Session emits a candidate iff
sum(intervals) + workInCurrentInterval + accumulatedTime exceeds 1000 ms,
and regardless of emission resets the state to IDLE with startTime,
sessionStartTime, targetTime, breakRemaining absent, accumulatedTime 0,
intervals and completedTasks emptied (mode alone survives); emission
decision and reset are both functions of the same pre-reset snapshot ts. -/
theorem c2_end_session_threshold_and_reset (ts : TimerState) (now : ℚ) :
    ((handleEndSession ts now).2.isSome = true ↔
      ts.intervals.sum + workInCurrentInterval ts now + ts.accumulatedTime > 1000) ∧
    (handleEndSession ts now).1 =
      { mode := ts.mode
        status := .IDLE
        startTime := none
        sessionStartTime := none
        accumulatedTime := 0
        targetTime := none
        breakRemaining := none
        intervals := []
        completedTasks := [] } := by
  refine ⟨?_, rfl⟩
  by_cases h : totalFocused ts now > 1000
  · simp only [handleEndSession, if_pos h, Option.isSome_some, true_iff]
    simpa [totalFocused] using h
  · simp only [handleEndSession, if_neg h, Option.isSome_none,
      Bool.false_eq_true, false_iff]
    simpa [totalFocused] using h

/-- Claim C7 (confirmed): the periodic tick is a no-op on an IDLE state:
it neither changes the TimerState nor emits a candidate session. -/
theorem c7_tick_idle_noop (ts : TimerState) (now : ℚ) (h : ts.status = .IDLE) :
    tick ts now = (ts, none) := by
  simp [tick, h]

/-- Claim C7, witness: the tick applied to the initial IDLE state at an
arbitrary concrete time. -/
theorem c7_tick_idle_noop_witness :
    tick initialTimerState 999 = (initialTimerState, none) :=
  c7_tick_idle_noop initialTimerState 999 rfl

/-- Claim C10 (confirmed): Skip-break, from any state, sets status IDLE
and clears startTime and breakRemaining, preserves mode,
sessionStartTime, accumulatedTime, targetTime, intervals and
completedTasks, and emits no candidate session — the chain's banked
intervals survive for a later Start. -/
theorem c10_skip_break_frame (ts : TimerState) :
    stepO ts Event.skipBreak =
      ({ ts with status := .IDLE, startTime := none, breakRemaining := none }, none) ∧
    (skipBreak ts).mode = ts.mode ∧
    (skipBreak ts).sessionStartTime = ts.sessionStartTime ∧
    (skipBreak ts).accumulatedTime = ts.accumulatedTime ∧
    (skipBreak ts).targetTime = ts.targetTime ∧
    (skipBreak ts).intervals = ts.intervals ∧
    (skipBreak ts).completedTasks = ts.completedTasks :=
  ⟨rfl, rfl, rfl, rfl, rfl, rfl, rfl⟩

/-- Claim C3, amended: for a FLOW RUNNING state whose startTime is set to
a NONZERO timestamp s (the code reads startTime through JavaScript `||`,
which treats the timestamp 0 as absent), the toggle at time now banks the
interval now - s, sets breakRemaining = (now - s) / flowDivisor,
startTime = now, accumulatedTime = 0 and status = BREAK, all other
fields unchanged. -/
theorem c3_flow_toggle_to_break (fd cm now s : ℚ) (ts : TimerState)
    (hm : ts.mode = .FLOW) (hs : ts.status = .RUNNING)
    (hst : ts.startTime = some s) (hs0 : s ≠ 0) :
    toggleTimer fd cm ts now =
      { ts with
        status := .BREAK
        startTime := some now
        accumulatedTime := 0
        intervals := ts.intervals ++ [now - s]
        breakRemaining := some ((now - s) / fd) } := by
  have hj : jsOr ts.startTime now = s := by
    rw [hst]; simp [jsOr, truthy, hs0]
  simp only [toggleTimer, hs, hm, hj, if_true, reduceIte]

/-- A FLOW RUNNING state whose current segment began at the (falsy)
timestamp 0. -/
def c3bad : TimerState where
  mode := .FLOW
  status := .RUNNING
  startTime := some 0
  sessionStartTime := some 0
  accumulatedTime := 0
  targetTime := none
  breakRemaining := none
  intervals := []
  completedTasks := []

/-- Claim C3, counterexample to the claim as stated: with startTime set
to 0 (a set value), toggling at time 5000 appends the interval 0 — not
now - startTime = 5000 — because `now - (startTime || now)` collapses to
0 when startTime is the falsy number 0. -/
theorem c3_flow_toggle_to_break_counterexample :
    c3bad.mode = .FLOW ∧ c3bad.status = .RUNNING ∧ c3bad.startTime = some 0 ∧
    (toggleTimer 5 25 c3bad 5000).intervals = [0] ∧
    c3bad.intervals ++ [(5000 : ℚ) - 0] = [5000] ∧
    (0 : ℚ) ≠ 5000 := by
  refine ⟨rfl, rfl, rfl, ?_, ?_, by norm_num⟩
  · norm_num [toggleTimer, c3bad, jsOr, truthy]
  · norm_num [c3bad]

/-- A FLOW RUNNING state whose current segment began at t0 = 1. -/
def c3run : TimerState where
  mode := .FLOW
  status := .RUNNING
  startTime := some 1
  sessionStartTime := some 1
  accumulatedTime := 0
  targetTime := none
  breakRemaining := none
  intervals := []
  completedTasks := []

/-- Claim C3, witness: starting at t0 = 1 and toggling at t0 + 5000 with
divisor 5 yields intervals = [5000], breakRemaining = 1000, status BREAK,
startTime = t0 + 5000, exactly the spec's FLOW round-trip example. -/
theorem c3_flow_toggle_to_break_witness :
    (toggleTimer 5 25 c3run 5001).intervals = [5000] ∧
    (toggleTimer 5 25 c3run 5001).breakRemaining = some 1000 ∧
    (toggleTimer 5 25 c3run 5001).status = .BREAK ∧
    (toggleTimer 5 25 c3run 5001).startTime = some 5001 := by
  have h := c3_flow_toggle_to_break 5 25 5001 1 c3run rfl rfl rfl (by norm_num)
  rw [h]
  refine ⟨?_, ?_, rfl, rfl⟩
  · norm_num [c3run]
  · norm_num [c3run]

/-- Claim C4, amended: for a COUNTDOWN RUNNING state whose targetTime is
set to a NONZERO duration T and whose startTime is set to a NONZERO
timestamp s (the code guards on JavaScript truthiness of targetTime and
reads startTime through `||`, so the value 0 acts as absent in both), the
tick at time now is exactly an End-Session event at now when
accumulatedTime + (now - s) ≥ T, and a no-op otherwise. -/
theorem c4_countdown_autocomplete (ts : TimerState) (now s T : ℚ)
    (hm : ts.mode = .COUNTDOWN) (hs : ts.status = .RUNNING)
    (htt : ts.targetTime = some T) (hT : T ≠ 0)
    (hst : ts.startTime = some s) (hs0 : s ≠ 0) :
    tick ts now =
      if ts.accumulatedTime + (now - s) ≥ T then handleEndSession ts now
      else (ts, none) := by
  have hj : jsOr ts.startTime now = s := by
    rw [hst]; simp [jsOr, truthy, hs0]
  have htr : truthy ts.targetTime := by
    rw [htt]; simpa [truthy] using hT
  unfold tick
  rw [if_pos hs, if_pos ⟨hm, htr⟩, hj, htt, Option.getD_some]

/-- A COUNTDOWN RUNNING state with the falsy target duration 0. -/
def c4bad1 : TimerState where
  mode := .COUNTDOWN
  status := .RUNNING
  startTime := some 1
  sessionStartTime := some 1
  accumulatedTime := 0
  targetTime := some 0
  breakRemaining := none
  intervals := []
  completedTasks := []

/-- A COUNTDOWN RUNNING state whose segment began at the falsy
timestamp 0. -/
def c4bad2 : TimerState where
  mode := .COUNTDOWN
  status := .RUNNING
  startTime := some 0
  sessionStartTime := some 0
  accumulatedTime := 0
  targetTime := some 50000
  breakRemaining := none
  intervals := []
  completedTasks := []

/-- Claim C4, counterexample to the claim as stated, in two parts.
With targetTime set to 0: accumulated + live elapsed = 9 ≥ 0 =
targetTime, yet the tick does nothing (state stays RUNNING) because the
truthiness guard skips a zero targetTime, while an End-Session at now
would reset to IDLE.  With startTime set to 0 and targetTime 50000:
accumulated + (now - startTime) = 60000 ≥ 50000, yet the tick does
nothing because `startTime || now` makes the live elapsed time 0. -/
theorem c4_countdown_autocomplete_counterexample :
    (c4bad1.accumulatedTime + ((10 : ℚ) - 1) ≥ 0) ∧
    tick c4bad1 10 = (c4bad1, none) ∧
    (handleEndSession c4bad1 10).1.status = .IDLE ∧
    (tick c4bad1 10).1.status = .RUNNING ∧
    (c4bad2.accumulatedTime + ((60000 : ℚ) - 0) ≥ 50000) ∧
    tick c4bad2 60000 = (c4bad2, none) ∧
    (tick c4bad2 60000).1.status = .RUNNING := by
  have h1 : tick c4bad1 10 = (c4bad1, none) := by
    norm_num [tick, c4bad1, jsOr, truthy]
  have h2 : tick c4bad2 60000 = (c4bad2, none) := by
    norm_num [tick, c4bad2, jsOr, truthy]
  refine ⟨by norm_num [c4bad1], h1, rfl, by rw [h1]; rfl, by norm_num [c4bad2],
    h2, by rw [h2]; rfl⟩

/-- A COUNTDOWN RUNNING state with targetTime 60000 started at t0 = 1. -/
def c4run : TimerState where
  mode := .COUNTDOWN
  status := .RUNNING
  startTime := some 1
  sessionStartTime := some 1
  accumulatedTime := 0
  targetTime := some 60000
  breakRemaining := none
  intervals := []
  completedTasks := []

/-- Claim C4, witness: targetTime 60000 started at t0 = 1; the tick at
t0 + 60000 is exactly an End-Session at that instant, the state resets to
IDLE, and the emitted candidate's focused duration is 60000 ms. -/
theorem c4_countdown_autocomplete_witness :
    tick c4run 60001 = handleEndSession c4run 60001 ∧
    (tick c4run 60001).1.status = .IDLE ∧
    (tick c4run 60001).2.map Pending.duration = some 60000 := by
  have h := c4_countdown_autocomplete c4run 60001 1 60000 rfl rfl rfl
    (by norm_num) rfl (by norm_num)
  have hc : c4run.accumulatedTime + ((60001 : ℚ) - 1) ≥ 60000 := by
    norm_num [c4run]
  rw [h, if_pos hc]
  refine ⟨rfl, rfl, ?_⟩
  norm_num [handleEndSession, totalFocused, workInCurrentInterval,
    finalSessionStartTime, segmentCount, jsOr, truthy, c4run]

/-- Claim C6, amended: for a BREAK state with breakRemaining set to b and
startTime set to a NONZERO timestamp s (the code reads startTime through
JavaScript `||`, so the timestamp 0 acts as absent and stalls the
expiry), once b - (now - s) ≤ 0 the tick resets status to IDLE and clears
startTime and breakRemaining, leaves mode, sessionStartTime,
accumulatedTime, targetTime, intervals and completedTasks unchanged, and
emits no session record. -/
theorem c6_break_expiry (ts : TimerState) (now b s : ℚ)
    (hs : ts.status = .BREAK) (hb : ts.breakRemaining = some b)
    (hst : ts.startTime = some s) (hs0 : s ≠ 0)
    (hexp : b - (now - s) ≤ 0) :
    tick ts now =
      ({ ts with status := .IDLE, startTime := none, breakRemaining := none },
        none) := by
  have hj : jsOr ts.startTime now = s := by
    rw [hst]; simp [jsOr, truthy, hs0]
  simp [tick, handleBreakEnd, hs, hb, hj, hexp]

/-- A BREAK state whose break began at the falsy timestamp 0. -/
def c6bad : TimerState where
  mode := .FLOW
  status := .BREAK
  startTime := some 0
  sessionStartTime := some 0
  accumulatedTime := 0
  targetTime := none
  breakRemaining := some 1000
  intervals := []
  completedTasks := []

/-- Claim C6, counterexample to the claim as stated: breakRemaining 1000,
startTime set to 0, tick at now = 5000.  The claim's expiry condition
1000 - (5000 - 0) ≤ 0 holds, yet the tick leaves the state in BREAK,
because `now - (startTime || now)` evaluates the elapsed break time as 0
when startTime is the falsy number 0. -/
theorem c6_break_expiry_counterexample :
    ((1000 : ℚ) - ((5000 : ℚ) - 0) ≤ 0) ∧
    c6bad.status = .BREAK ∧ c6bad.breakRemaining = some 1000 ∧
    c6bad.startTime = some 0 ∧
    tick c6bad 5000 = (c6bad, none) ∧
    (tick c6bad 5000).1.status = .BREAK ∧
    TimerStatus.BREAK ≠ TimerStatus.IDLE := by
  have h1 : tick c6bad 5000 = (c6bad, none) := by
    norm_num [tick, c6bad, jsOr, truthy]
  refine ⟨by norm_num, rfl, rfl, rfl, h1, by rw [h1]; rfl, by decide⟩

/-- A BREAK state with a banked interval and 1000 ms of break left,
started at t0 = 1. -/
def c6run : TimerState where
  mode := .FLOW
  status := .BREAK
  startTime := some 1
  sessionStartTime := some 1
  accumulatedTime := 0
  targetTime := none
  breakRemaining := some 1000
  intervals := [5000]
  completedTasks := []

/-- Claim C6, witness: the break started at t0 = 1 with 1000 ms remaining
expires at now = 1500; the state drops to IDLE with startTime and
breakRemaining cleared, the banked interval list [5000] survives, and
nothing is emitted. -/
theorem c6_break_expiry_witness :
    tick c6run 1500 =
      ({ c6run with status := .IDLE, startTime := none, breakRemaining := none },
        none) ∧
    (tick c6run 1500).1.intervals = [5000] ∧
    (tick c6run 1500).1.accumulatedTime = c6run.accumulatedTime ∧
    (tick c6run 1500).2 = none := by
  have h := c6_break_expiry c6run 1500 1000 1 rfl rfl rfl (by norm_num)
    (by norm_num)
  rw [h]
  exact ⟨rfl, rfl, rfl, rfl⟩

/-! ### Reachability invariants -/

/-- The startTime / status coupling asserted by the spec. -/
def StartTimeInv (ts : TimerState) : Prop :=
  ts.startTime.isSome = true ↔ (ts.status = .RUNNING ∨ ts.status = .BREAK)

theorem startTimeInv_step (ts : TimerState) (e : Event) (h : StartTimeInv ts) :
    StartTimeInv (step ts e) := by
  cases e with
  | toggle fd cm now =>
    simp only [step, stepO, toggleTimer]
    split_ifs <;> simp [StartTimeInv]
  | endSession now =>
    simp [step, stepO, handleEndSession, StartTimeInv]
  | reset =>
    simp [step, stepO, resetTimer, StartTimeInv]
  | tickAt now =>
    simp only [step, stepO, tick]
    split_ifs <;>
      first
        | simpa [StartTimeInv, handleEndSession, handleBreakEnd] using h
        | simp [StartTimeInv, handleEndSession, handleBreakEnd]
  | skipBreak =>
    simp [step, stepO, skipBreak, StartTimeInv]
  | extendBreak ms =>
    simpa [step, stepO, extendBreak, StartTimeInv] using h
  | setMode m =>
    simpa [step, stepO, setMode, StartTimeInv] using h

/-- Claim C8 (confirmed): startTime is set iff status is RUNNING or
BREAK — every operation preserves the biconditional, and it holds in
every state reachable from the initial IDLE state. -/
theorem c8_startTime_iff_active :
    (∀ (ts : TimerState) (e : Event), StartTimeInv ts → StartTimeInv (step ts e)) ∧
    (∀ ts : TimerState, Reachable ts → StartTimeInv ts) := by
  refine ⟨startTimeInv_step, ?_⟩
  intro ts h
  induction h with
  | init => simp [StartTimeInv, initialTimerState]
  | step hr hp ih => exact startTimeInv_step _ _ ih

/-- Claim C8, witness: the biconditional at the (reachable) initial
state, obtained from the reachability half of the theorem. -/
theorem c8_startTime_iff_active_witness : StartTimeInv initialTimerState :=
  c8_startTime_iff_active.2 initialTimerState ReachableW.init

/-- Mode switches restricted to moments when no FLOW interval is banked:
the side condition under which the COUNTDOWN-intervals-empty invariant is
actually inductive. -/
def modeSwitchSafe : TimerState → Event → Prop := fun ts e =>
  match e with
  | .setMode _ => ts.intervals = []
  | _ => True

theorem modeInv_step (ts : TimerState) (e : Event)
    (h : ts.mode = .COUNTDOWN → ts.intervals = [])
    (hp : modeSwitchSafe ts e) :
    (step ts e).mode = .COUNTDOWN → (step ts e).intervals = [] := by
  cases e with
  | toggle fd cm now =>
    simp only [step, stepO, toggleTimer]
    split_ifs <;> intro hc <;> simp_all
  | endSession now =>
    intro hc
    simp [step, stepO, handleEndSession]
  | reset =>
    intro hc
    simp [step, stepO, resetTimer]
  | tickAt now =>
    simp only [step, stepO, tick]
    split_ifs <;> intro hc <;> simp_all [handleEndSession, handleBreakEnd]
  | skipBreak =>
    intro hc
    simp_all [step, stepO, skipBreak]
  | extendBreak ms =>
    intro hc
    simp_all [step, stepO, extendBreak]
  | setMode m =>
    intro hc
    simp only [modeSwitchSafe] at hp
    simp_all [step, stepO, setMode]

/-- Claim C5, amended: in every state reachable from the initial IDLE
state by the program's operations, PROVIDED every mode switch happens
while intervals is empty, mode = COUNTDOWN implies intervals = [].  The
unrestricted claim is false: the mode buttons overwrite mode and keep
every other field, so switching to COUNTDOWN during a FLOW chain carries
the banked intervals along. -/
theorem c5_countdown_intervals_empty (ts : TimerState)
    (h : ReachableW modeSwitchSafe ts) :
    ts.mode = .COUNTDOWN → ts.intervals = [] := by
  induction h with
  | init => intro _; rfl
  | step hr hp ih => exact modeInv_step _ _ ih hp

/-- The state after starting the FLOW timer of a fresh category at
time 1. -/
def c5mid : TimerState :=
  ⟨.FLOW, .RUNNING, some 1, some 1, 0, none, none, [], []⟩

/-- The state after then toggling to BREAK at time 5001: interval 5000
banked, break 1000. -/
def c5brk : TimerState :=
  ⟨.FLOW, .BREAK, some 5001, some 1, 0, none, some 1000, [5000], []⟩

theorem stepInit_toggle1 : step initialTimerState (Event.toggle 5 25 1) = c5mid := by
  simp [step, stepO, toggleTimer, initialTimerState, c5mid, jsOr, truthy] <;>
    norm_num

/-- The trace toggle(1), toggle(5001), mode-switch-to-COUNTDOWN. -/
def c5state : TimerState :=
  step (step (step initialTimerState (.toggle 5 25 1)) (.toggle 5 25 5001))
    (.setMode .COUNTDOWN)

theorem c5state_eq : c5state = { c5brk with mode := .COUNTDOWN } := by
  show step (step (step initialTimerState (.toggle 5 25 1)) (.toggle 5 25 5001))
      (.setMode .COUNTDOWN) = _
  rw [stepInit_toggle1]
  have h2 : step c5mid (Event.toggle 5 25 5001) = c5brk := by
    simp [step, stepO, toggleTimer, c5mid, c5brk, jsOr, truthy] <;> norm_num
  rw [h2]
  rfl

/-- Claim C5, counterexample to the claim as stated: the state reached
by toggle(1), toggle(5001), mode-switch-to-COUNTDOWN is reachable by the
program's operations, has mode COUNTDOWN, and still holds the FLOW
chain's banked interval list [5000] ≠ []. -/
theorem c5_countdown_intervals_empty_counterexample :
    Reachable c5state ∧ c5state.mode = .COUNTDOWN ∧
    c5state.intervals = [5000] ∧ ([5000] : List ℚ) ≠ [] := by
  refine ⟨?_, ?_, ?_, by simp⟩
  · exact ReachableW.step
      (ReachableW.step (ReachableW.step ReachableW.init trivial) trivial) trivial
  · rw [c5state_eq]
  · rw [c5state_eq]
    rfl

/-- Switching the fresh initial state to COUNTDOWN — a mode switch with
no banked intervals, so the side condition of the amended claim holds. -/
def c5safe : TimerState := step initialTimerState (.setMode .COUNTDOWN)

/-- Claim C5, witness: the amended theorem applied to the
switch-while-empty trace, every hypothesis discharged concretely. -/
theorem c5_countdown_intervals_empty_witness : c5safe.intervals = [] :=
  c5_countdown_intervals_empty c5safe
    (ReachableW.step ReachableW.init rfl) rfl

/-- A rational that is an integer. -/
def IsIntQ (q : ℚ) : Prop := ∃ n : ℤ, q = (n : ℤ)

def OptIntQ (o : Option ℚ) : Prop := ∀ v, o = some v → IsIntQ v

theorem isIntQ_zero : IsIntQ 0 := ⟨0, by norm_num⟩

theorem isIntQ_add {a b : ℚ} (ha : IsIntQ a) (hb : IsIntQ b) : IsIntQ (a + b) := by
  obtain ⟨m, rfl⟩ := ha
  obtain ⟨n, rfl⟩ := hb
  exact ⟨m + n, by push_cast; ring⟩

theorem isIntQ_sub {a b : ℚ} (ha : IsIntQ a) (hb : IsIntQ b) : IsIntQ (a - b) := by
  obtain ⟨m, rfl⟩ := ha
  obtain ⟨n, rfl⟩ := hb
  exact ⟨m - n, by push_cast; ring⟩

theorem isIntQ_mul {a b : ℚ} (ha : IsIntQ a) (hb : IsIntQ b) : IsIntQ (a * b) := by
  obtain ⟨m, rfl⟩ := ha
  obtain ⟨n, rfl⟩ := hb
  exact ⟨m * n, by push_cast; ring⟩

theorem optIntQ_none : OptIntQ none := fun _ hv => by cases hv

theorem optIntQ_some {x : ℚ} (h : IsIntQ x) : OptIntQ (some x) := fun v hv => by
  cases hv
  exact h

theorem jsOr_intQ {o : Option ℚ} {d : ℚ} (ho : OptIntQ o) (hd : IsIntQ d) :
    IsIntQ (jsOr o d) := by
  cases o with
  | none => simpa [jsOr, truthy] using hd
  | some v =>
    by_cases hv : v = 0
    · simpa [jsOr, truthy, hv] using hd
    · simpa [jsOr, truthy, hv] using ho v rfl

/-- Integer-millisecond inputs: the timestamps, settings values and
extension amounts an operation reads are whole numbers, as Date.now()
and the millisecond-denominated settings produce. -/
def Event.intInputs : Event → Prop
  | .toggle fd cm now => IsIntQ fd ∧ IsIntQ cm ∧ IsIntQ now
  | .endSession now => IsIntQ now
  | .tickAt now => IsIntQ now
  | .extendBreak ms => IsIntQ ms
  | .reset => True
  | .skipBreak => True
  | .setMode _ => True

/-- All stored durations and timestamps EXCEPT breakRemaining are whole
milliseconds. -/
def IntInv (ts : TimerState) : Prop :=
  IsIntQ ts.accumulatedTime ∧ OptIntQ ts.startTime ∧ OptIntQ ts.sessionStartTime ∧
  OptIntQ ts.targetTime ∧ ∀ q ∈ ts.intervals, IsIntQ q

theorem intInv_step (ts : TimerState) (e : Event) (h : IntInv ts)
    (he : e.intInputs) : IntInv (step ts e) := by
  obtain ⟨hacc, hst, hsst, htt, hiv⟩ := h
  cases e with
  | toggle fd cm now =>
    obtain ⟨hfd, hcm, hnow⟩ := he
    have hint : IsIntQ (now - jsOr ts.startTime now) :=
      isIntQ_sub hnow (jsOr_intQ hst hnow)
    by_cases h1 : ts.status = .RUNNING
    · by_cases h2 : ts.mode = .FLOW
      · simp only [step, stepO, toggleTimer, if_pos h1, if_pos h2]
        refine ⟨isIntQ_zero, optIntQ_some hnow, hsst, htt, ?_⟩
        intro q hq
        rcases List.mem_append.mp hq with hq | hq
        · exact hiv q hq
        · rw [List.mem_singleton] at hq
          subst hq
          exact hint
      · simp only [step, stepO, toggleTimer, if_pos h1, if_neg h2]
        exact ⟨isIntQ_add hacc hint, optIntQ_none, hsst, htt, hiv⟩
    · by_cases h2 : ts.status = .BREAK
      · simp only [step, stepO, toggleTimer, if_neg h1, if_pos h2]
        exact ⟨isIntQ_zero, optIntQ_some hnow, hsst, htt, hiv⟩
      · simp only [step, stepO, toggleTimer, if_neg h1, if_neg h2]
        refine ⟨?_, optIntQ_some hnow, optIntQ_some (jsOr_intQ hsst hnow), ?_, hiv⟩
        · by_cases hm : ts.mode = .FLOW
          · simp only [if_pos hm]
            exact isIntQ_zero
          · simp only [if_neg hm]
            exact hacc
        · by_cases hm : ts.mode = .COUNTDOWN
          · simp only [if_pos hm]
            exact optIntQ_some (jsOr_intQ htt
              (isIntQ_mul (isIntQ_mul hcm ⟨60, by norm_num⟩) ⟨1000, by norm_num⟩))
          · simp only [if_neg hm]
            exact optIntQ_none
  | endSession now =>
    exact ⟨isIntQ_zero, optIntQ_none, optIntQ_none, optIntQ_none,
      fun q hq => by simp [step, stepO, handleEndSession] at hq⟩
  | reset =>
    exact ⟨isIntQ_zero, optIntQ_none, optIntQ_none, optIntQ_none,
      fun q hq => by simp [step, stepO, resetTimer] at hq⟩
  | tickAt now =>
    simp only [step, stepO, tick]
    split_ifs
    · exact ⟨isIntQ_zero, optIntQ_none, optIntQ_none, optIntQ_none,
        fun q hq => by simp [handleEndSession] at hq⟩
    · exact ⟨hacc, hst, hsst, htt, hiv⟩
    · exact ⟨hacc, hst, hsst, htt, hiv⟩
    · exact ⟨hacc, optIntQ_none, hsst, htt, hiv⟩
    · exact ⟨hacc, hst, hsst, htt, hiv⟩
    · exact ⟨hacc, hst, hsst, htt, hiv⟩
  | skipBreak =>
    exact ⟨hacc, optIntQ_none, hsst, htt, hiv⟩
  | extendBreak ms =>
    exact ⟨hacc, hst, hsst, htt, hiv⟩
  | setMode m =>
    exact ⟨hacc, hst, hsst, htt, hiv⟩

/-- Claim C9, amended: over any run whose inputs are whole milliseconds,
every reachable state stores integers in accumulatedTime, targetTime,
startTime, sessionStartTime and every element of intervals.  The claim's
inclusion of breakRemaining is false: the FLOW toggle stores
interval / flowDivisor without rounding, which is an integer only when
the divisor divides the interval. -/
theorem c9_integer_durations (ts : TimerState)
    (h : ReachableW (fun _ e => e.intInputs) ts) : IntInv ts := by
  induction h with
  | init =>
    exact ⟨isIntQ_zero, optIntQ_none, optIntQ_none, optIntQ_none,
      fun q hq => by simp [initialTimerState] at hq⟩
  | step hr hp ih => exact intInv_step _ _ ih hp

def c9state : TimerState :=
  step (step initialTimerState (.toggle 5 25 1)) (.toggle 5 25 5002)

/-- The state c9state computes to: toggling at 5002 banks interval 5001
and stores the non-integral break 5001/5. -/
def c9brk : TimerState :=
  ⟨.FLOW, .BREAK, some 5002, some 1, 0, none, some (5001 / 5), [5001], []⟩

theorem c9state_eq : c9state = c9brk := by
  show step (step initialTimerState (.toggle 5 25 1)) (.toggle 5 25 5002) = c9brk
  rw [stepInit_toggle1]
  simp [step, stepO, toggleTimer, c5mid, c9brk, jsOr, truthy] <;> norm_num

/-- Claim C9, counterexample to the claim as stated: with the default
divisor 5 and integer timestamps 1 and 5002 (interval 5001 ms), the
reachable post-toggle state stores breakRemaining = 5001/5 = 1000.2 ms,
which is not an integer. -/
theorem c9_integer_durations_counterexample :
    ReachableW (fun _ e => e.intInputs) c9state ∧
    c9state.breakRemaining = some (5001 / 5 : ℚ) ∧
    ¬ IsIntQ (5001 / 5 : ℚ) := by
  refine ⟨?_, ?_, ?_⟩
  · exact ReachableW.step
      (ReachableW.step ReachableW.init
        ⟨⟨5, by norm_num⟩, ⟨25, by norm_num⟩, ⟨1, by norm_num⟩⟩)
      ⟨⟨5, by norm_num⟩, ⟨25, by norm_num⟩, ⟨5002, by norm_num⟩⟩
  · rw [c9state_eq]
    rfl
  · rintro ⟨n, hn⟩
    have h2 : (5001 : ℚ) = (n : ℚ) * 5 := by
      calc (5001 : ℚ) = 5001 / 5 * 5 := by norm_num
        _ = (n : ℚ) * 5 := by rw [hn]
    have h3 : (5001 : ℤ) = n * 5 := by exact_mod_cast h2
    omega

/-- Claim C9, witness: the amended theorem at the (trivially reachable)
initial state. -/
theorem c9_integer_durations_witness : IntInv initialTimerState :=
  c9_integer_durations initialTimerState ReachableW.init

end Flow
